import Mathlib

/-!
Verification of the SleepNice sleep-tracking application core.

This file gives a shallow embedding, in Lean, of the logic of the
repository's source files and proves properties of that embedding:

* the alarm evaluation tick and dismissal suppression window
  (components/AlarmClock.tsx: checkAlarms, stopRinging, addAlarm);
* the record store ordering and put semantics (services/db.ts:
  getAllAlarms, saveAlarm, getSleepHistory);
* the recording-session stop/analyze flow and cleanup/reset
  (components/SleepTracker.tsx: handleStopAndAnalyze, cleanup, resetState);
* the API client error translation (services/api.ts: postToApi);
* the serverless gateway dispatcher (netlify function: handler);
* the dashboard aggregation (components/Dashboard.tsx: filteredData,
  avgScore, avgDuration).

Asynchronous effects (IndexedDB writes, timers, fetch calls) are modelled
by making each embedded function return the writes/effects it issues and
by passing the outcomes of external calls in as explicit arguments.
-/

/-- The alarm record (types.ts).  `days` holds weekday indices 0..6;
an empty `days` list marks a one-shot alarm. -/
structure Alarm where
  id : String
  time : String
  label : String
  isActive : Bool
  days : List Nat
deriving DecidableEq, Repr

/-- JavaScript `String.prototype.padStart(2, '0')`: zero-pad on the left
until the string is at least two characters long. -/
def padStart2 (s : String) : String :=
  if s.length = 0 then "00" else if s.length = 1 then "0" ++ s else s

/-- The clock string computed at each tick of `checkAlarms`
(AlarmClock.tsx line 129): hours and minutes, each zero-padded to two
digits, joined by a colon. -/
def currentTimeString (hours minutes : Nat) : String :=
  padStart2 (toString hours) ++ ":" ++ padStart2 (toString minutes)

/-- The firing condition tested for each alarm inside the `for` loop of
`checkAlarms` (AlarmClock.tsx line 133): active, minute-exact time match,
not in the `ignoreForThisMinute` suppression list, and day-set empty or
containing the current weekday. -/
def alarmMatches (currentTime : String) (currentDay : Nat)
    (suppressed : List String) (a : Alarm) : Bool :=
  a.isActive && a.time == currentTime && !(suppressed.contains a.id) &&
    (a.days.isEmpty || a.days.contains currentDay)

/-- One tick of the alarm evaluation loop (AlarmClock.tsx lines 126-146,
`checkAlarms`).  Returns the new `ringingAlarm` together with the list of
alarm records written back to the store by this tick (the one-shot
deactivation write).  If an alarm is already ringing the tick is a no-op;
otherwise the first matching alarm in list order starts ringing
(the loop `break`s after the first match, modelled by `List.find?`), and
if its day-set is empty it is immediately saved back with
`isActive := false`. -/
def checkAlarms (ringing : Option Alarm) (alarms : List Alarm)
    (suppressed : List String) (currentTime : String) (currentDay : Nat) :
    Option Alarm × List Alarm :=
  match ringing with
  | some r => (some r, [])
  | none =>
    match alarms.find? (alarmMatches currentTime currentDay suppressed) with
    | none => (none, [])
    | some a =>
      if a.days.isEmpty then (some a, [{ a with isActive := false }])
      else (some a, [])

/-- The delay, in milliseconds, of the `setTimeout` that removes a
dismissed alarm's id from `ignoreForThisMinute`
(AlarmClock.tsx line 180: `61000`). -/
def SUPPRESSION_MS : Nat := 61000

/-- A dismissal event: which alarm id was added to the suppression list
and at what wall-clock millisecond. -/
structure Dismissal where
  alarmId : String
  atMs : Nat
deriving DecidableEq, Repr

/-- `stopRinging` (AlarmClock.tsx lines 171-181): if nothing is ringing it
returns unchanged; otherwise it clears `ringingAlarm` and records a
dismissal (the id is pushed onto `ignoreForThisMinute` and a timeout is
scheduled to remove it `SUPPRESSION_MS` later). -/
def stopRinging (ringing : Option Alarm) (nowMs : Nat) :
    Option Alarm × Option Dismissal :=
  match ringing with
  | none => (none, none)
  | some a => (none, some ⟨a.id, nowMs⟩)

/-- The suppression list contributed by a dismissal at wall-clock time
`tMs`: the id is present from the dismissal until the scheduled timeout
fires `SUPPRESSION_MS` milliseconds later. -/
def suppressedIdsAt (d : Dismissal) (tMs : Nat) : List String :=
  if d.atMs ≤ tMs ∧ tMs < d.atMs + SUPPRESSION_MS then [d.alarmId] else []

/-- `saveAlarm` (services/db.ts lines 82-97): an IndexedDB `put` on the
alarms store, keyed by `id` — replace the record with the same key if one
exists, otherwise insert. -/
def saveAlarm (store : List Alarm) (a : Alarm) : List Alarm :=
  if store.any (fun x => x.id == a.id) then
    store.map (fun x => if x.id == a.id then a else x)
  else store ++ [a]

/-- `getAllAlarms` (services/db.ts lines 65-80): fetch every record and
sort by the `time` string ascending (`a.time.localeCompare(b.time)`).
JavaScript `Array.prototype.sort` is a stable sort, modelled by
`List.mergeSort`. -/
def getAllAlarms (store : List Alarm) : List Alarm :=
  store.mergeSort (fun a b => decide (a.time ≤ b.time))

/-- `addAlarm` (AlarmClock.tsx lines 153-161): build the new alarm with
`id = Date.now().toString()`, `put` it into the store, and append it to
the in-memory list which is then re-sorted by time. Returns
(new store contents, new in-memory list). -/
def addAlarm (nowMs : Nat) (time label : String) (days : List Nat)
    (store alarms : List Alarm) : List Alarm × List Alarm :=
  let newAlarm : Alarm :=
    { id := toString nowMs, time := time, label := label,
      isActive := true, days := days }
  (saveAlarm store newAlarm,
   (alarms ++ [newAlarm]).mergeSort (fun a b => decide (a.time ≤ b.time)))

lemma checkAlarms_none_fst (alarms : List Alarm) (suppressed : List String)
    (currentTime : String) (currentDay : Nat) :
    (checkAlarms none alarms suppressed currentTime currentDay).1 =
      alarms.find? (alarmMatches currentTime currentDay suppressed) := by
  unfold checkAlarms
  cases alarms.find? (alarmMatches currentTime currentDay suppressed) with
  | none => rfl
  | some a => by_cases h : a.days.isEmpty <;> simp [h]

lemma alarmMatches_eq_true_iff (currentTime : String) (currentDay : Nat)
    (suppressed : List String) (a : Alarm) :
    alarmMatches currentTime currentDay suppressed a = true ↔
      (a.isActive = true ∧ a.time = currentTime ∧
       suppressed.contains a.id = false ∧
       (a.days = [] ∨ a.days.contains currentDay = true)) := by
  simp [alarmMatches, List.isEmpty_iff, and_assoc]

/-- C1: with no alarm currently ringing, a tick of the alarm evaluation
loop makes an alarm with a non-empty day-set the ringing alarm if and only
if that alarm is active, its stored time equals the current clock time
formatted as zero-padded HH:MM, its id is not in the suppression set, the
current weekday index is in its day-set, and no alarm earlier in list
order also matches (first match wins). -/
theorem checkAlarms_fires_iff (alarms : List Alarm) (suppressed : List String)
    (hours minutes currentDay : Nat) (a : Alarm) (hdays : a.days ≠ []) :
    (checkAlarms none alarms suppressed (currentTimeString hours minutes)
        currentDay).1 = some a ↔
      (a.isActive = true ∧ a.time = currentTimeString hours minutes ∧
       suppressed.contains a.id = false ∧ a.days.contains currentDay = true ∧
       ∃ before after, alarms = before ++ a :: after ∧
         ∀ b ∈ before,
           alarmMatches (currentTimeString hours minutes) currentDay
             suppressed b = false) := by
  rw [checkAlarms_none_fst, List.find?_eq_some]
  constructor
  · rintro ⟨hmatch, before, after, hsplit, hprev⟩
    rcases (alarmMatches_eq_true_iff _ _ _ _).1 hmatch with
      ⟨hact, htime, hsupp, hday⟩
    rcases hday with hempty | hmem
    · exact absurd hempty hdays
    · refine ⟨hact, htime, hsupp, hmem, before, after, hsplit, ?_⟩
      intro b hb
      have := hprev b hb
      simpa [Bool.not_eq_true'] using this
  · rintro ⟨hact, htime, hsupp, hmem, before, after, hsplit, hprev⟩
    refine ⟨(alarmMatches_eq_true_iff _ _ _ _).2
      ⟨hact, htime, hsupp, Or.inr hmem⟩, before, after, hsplit, ?_⟩
    intro b hb
    simpa [Bool.not_eq_true'] using hprev b hb

/-- Concrete instance of C1: a single active alarm set for 07:00 on
Mondays fires at 07:00 on a Monday. -/
theorem checkAlarms_fires_iff_witness :
    (checkAlarms none [⟨"1", "07:00", "wake", true, [1]⟩] []
        (currentTimeString 7 0) 1).1 = some ⟨"1", "07:00", "wake", true, [1]⟩ :=
  (checkAlarms_fires_iff [⟨"1", "07:00", "wake", true, [1]⟩] [] 7 0 1
      ⟨"1", "07:00", "wake", true, [1]⟩ (by decide)).2
    ⟨rfl, rfl, rfl, rfl, [], [], rfl, by intro b hb; simp at hb⟩

/-- C3: when a tick starts an alarm ringing, the tick immediately writes
the alarm back to the store with `isActive := false` exactly when its
day-set is empty (one-shot); an alarm with a non-empty day-set is never
deactivated by firing (the tick issues no store write for it). -/
theorem oneShot_deactivated_on_fire (alarms : List Alarm)
    (suppressed : List String) (currentTime : String) (currentDay : Nat)
    (a : Alarm)
    (hfire : (checkAlarms none alarms suppressed currentTime currentDay).1 =
      some a) :
    (a.days = [] →
      (checkAlarms none alarms suppressed currentTime currentDay).2 =
        [{ a with isActive := false }]) ∧
    (a.days ≠ [] →
      (checkAlarms none alarms suppressed currentTime currentDay).2 = []) := by
  unfold checkAlarms at hfire ⊢
  cases hfind : alarms.find? (alarmMatches currentTime currentDay suppressed) with
  | none => simp [hfind] at hfire
  | some b =>
    rw [hfind] at hfire
    by_cases hb : b.days.isEmpty
    · simp only [hb, if_true] at hfire ⊢
      obtain rfl : b = a := by simpa using hfire
      constructor
      · intro _; simp
      · intro hne
        exact absurd (List.isEmpty_iff.1 hb) hne
    · simp only [hb, if_false, Bool.false_eq_true] at hfire ⊢
      obtain rfl : b = a := by simpa using hfire
      constructor
      · intro h0
        exact absurd h0 (by simpa [List.isEmpty_iff] using hb)
      · intro _; simp

/-- Concrete instance of C3: a firing one-shot alarm is written back
deactivated by the very tick that starts it ringing. -/
theorem oneShot_deactivated_on_fire_witness :
    (checkAlarms none [⟨"2", "07:00", "wake", true, []⟩] [] "07:00" 1).2 =
      [⟨"2", "07:00", "wake", false, []⟩] :=
  (oneShot_deactivated_on_fire [⟨"2", "07:00", "wake", true, []⟩] [] "07:00" 1
      ⟨"2", "07:00", "wake", true, []⟩ rfl).1 rfl

/-- C4: dismissing a ringing alarm at time `t` clears the ringing state
and suppresses that alarm's id for the whole window `[t, t + 61 s)`:
the id is suppressed throughout at least the first 60 seconds, the window
is exactly 61000 ms (so removal happens at most 61 s after dismissal), and
from `t + 61 s` on the id is gone and the alarm matches the tick predicate
again exactly as if it were never suppressed. -/
theorem dismissal_suppression_window (a : Alarm) (t : Nat) :
    stopRinging (some a) t = (none, some ⟨a.id, t⟩) ∧
    (∀ τ, t ≤ τ → τ < t + SUPPRESSION_MS →
      a.id ∈ suppressedIdsAt ⟨a.id, t⟩ τ) ∧
    (∀ τ, t + SUPPRESSION_MS ≤ τ → a.id ∉ suppressedIdsAt ⟨a.id, t⟩ τ) ∧
    (60000 ≤ SUPPRESSION_MS ∧ SUPPRESSION_MS = 61000) ∧
    (∀ τ currentTime currentDay, t + SUPPRESSION_MS ≤ τ →
      alarmMatches currentTime currentDay (suppressedIdsAt ⟨a.id, t⟩ τ) a =
        (a.isActive && a.time == currentTime &&
          (a.days.isEmpty || a.days.contains currentDay))) := by
  refine ⟨rfl, ?_, ?_, ⟨by norm_num [SUPPRESSION_MS], rfl⟩, ?_⟩
  · intro τ h1 h2
    simp [suppressedIdsAt, h1, h2]
  · intro τ hτ
    have : ¬ (τ < t + SUPPRESSION_MS) := not_lt.2 hτ
    simp [suppressedIdsAt, this]
  · intro τ currentTime currentDay hτ
    have : ¬ (τ < t + SUPPRESSION_MS) := not_lt.2 hτ
    simp [suppressedIdsAt, this, alarmMatches]

/-- Concrete instance of C4: dismissing at 1000 ms suppresses the id at
50000 ms (inside the window) and no longer suppresses it at 62000 ms. -/
theorem dismissal_suppression_window_witness :
    stopRinging (some ⟨"3", "07:00", "wake", true, [1]⟩) 1000 =
      (none, some ⟨"3", 1000⟩) ∧
    "3" ∈ suppressedIdsAt ⟨"3", 1000⟩ 50000 ∧
    "3" ∉ suppressedIdsAt ⟨"3", 1000⟩ 62000 :=
  ⟨(dismissal_suppression_window ⟨"3", "07:00", "wake", true, [1]⟩ 1000).1,
   (dismissal_suppression_window ⟨"3", "07:00", "wake", true, [1]⟩ 1000).2.1
     50000 (by norm_num) (by norm_num [SUPPRESSION_MS]),
   (dismissal_suppression_window ⟨"3", "07:00", "wake", true, [1]⟩ 1000).2.2.1
     62000 (by norm_num [SUPPRESSION_MS])⟩

/-- The persisted sleep-session record (types.ts `AnalysisData`),
restricted to the fields the verified logic reads.  `events` and `stages`
are produced and consumed opaquely and are not needed here. -/
structure AnalysisData where
  date : String
  sleepScore : Int
  summary : String
  duration : Int
deriving DecidableEq, Repr

/-- `getSleepHistory` (services/db.ts lines 118-135): fetch every session
record and sort descending by `new Date(date).getTime()`.  The JavaScript
date parser is treated as an oracle `dateMs : String → Int` giving the
epoch-millisecond value of a date string. -/
def getSleepHistory (dateMs : String → Int) (store : List AnalysisData) :
    List AnalysisData :=
  store.mergeSort (fun a b => decide (dateMs b.date ≤ dateMs a.date))

/-- C6: `getAllAlarms` returns a permutation of the stored alarm records
ordered by ascending `time` string, and `getSleepHistory` returns a
permutation of the stored session records ordered by descending date
(descending epoch milliseconds of the `date` field). -/
theorem store_orders_alarms_and_sessions (dateMs : String → Int)
    (alarmStore : List Alarm) (sessionStore : List AnalysisData) :
    (getAllAlarms alarmStore).Pairwise (fun x y => x.time ≤ y.time) ∧
    (getAllAlarms alarmStore).Perm alarmStore ∧
    (getSleepHistory dateMs sessionStore).Pairwise
      (fun x y => dateMs y.date ≤ dateMs x.date) ∧
    (getSleepHistory dateMs sessionStore).Perm sessionStore := by
  refine ⟨?_, List.mergeSort_perm _ _, ?_, List.mergeSort_perm _ _⟩
  · have h := @List.sorted_mergeSort Alarm
      (fun x y => decide (x.time ≤ y.time))
      (fun a b c hab hbc =>
        decide_eq_true (le_trans (of_decide_eq_true hab) (of_decide_eq_true hbc)))
      (fun a b => by
        rcases le_total a.time b.time with h | h <;> simp [h])
      alarmStore
    exact h.imp fun hxy => of_decide_eq_true hxy
  · have h := @List.sorted_mergeSort AnalysisData
      (fun x y => decide (dateMs y.date ≤ dateMs x.date))
      (fun a b c hab hbc =>
        decide_eq_true (le_trans (of_decide_eq_true hbc) (of_decide_eq_true hab)))
      (fun a b => by
        rcases le_total (dateMs a.date) (dateMs b.date) with h | h <;> simp [h])
      sessionStore
    exact h.imp fun hxy => of_decide_eq_true hxy

/-- The six values of the tracker's `status` state variable
(SleepTracker.tsx `TrackerStatus`). -/
inductive TrackerStatus where
  | idle
  | requesting
  | tracking
  | analyzing
  | results
  | error
deriving DecidableEq, Repr

/-- The outcome of one `fetch` to the gateway as seen by `postToApi`
(services/api.ts): either `response.ok` with a typed payload, or a
non-200 response whose body parses to JSON with an optional `error`
field (`notOk (some f)`, `f` the field if present) or fails to parse
(`notOk none`). -/
inductive FetchOutcome (α : Type) where
  | ok (value : α)
  | notOk (errField : Option (Option String))

/-- Whether the HTTP response was a success. -/
def FetchOutcome.isOk {α : Type} : FetchOutcome α → Bool
  | .ok _ => true
  | .notOk _ => false

/-- `postToApi` (services/api.ts lines 5-20): a 200 response yields the
payload; on a non-200 response the body is parsed
(`.catch` substituting `{error: 'An unknown API error occurred.'}` on
parse failure) and `errorData.error || 'Failed to fetch data from API.'`
becomes the thrown error message. -/
def postToApi {α : Type} (r : FetchOutcome α) : Except String α :=
  match r with
  | .ok v => .ok v
  | .notOk errField =>
    let errorData : Option String :=
      match errField with
      | none => some "An unknown API error occurred."
      | some f => f
    .error (match errorData with
      | some e => if e = "" then "Failed to fetch data from API." else e
      | none => "Failed to fetch data from API.")

/-- The fixed debug message set when zero audio chunks were buffered
(SleepTracker.tsx line 74). -/
def noChunksMsg : String :=
  "[Final Check] No audio chunks were recorded. The stream might have been silent or stopped unexpectedly."

/-- The message stored by the `catch` block of `handleStopAndAnalyze`
(SleepTracker.tsx line 98): the caught error's `message` if it is a
non-empty string, else the fixed fallback.  `none` models a caught value
with no `message` property (the record store rejects with a plain
string). -/
def analyzeCatchMsg (m : Option String) : String :=
  match m with
  | some s => if s = "" then "Failed to analyze sleep audio. Please try again." else s
  | none => "Failed to analyze sleep audio. Please try again."

/-- The observable outcome of the stop-and-analyze flow: the sequence of
values assigned to `status` (in order) and the final `error` debug log. -/
structure StopOutcome where
  statusTrace : List TrackerStatus
  errorLog : List String
deriving DecidableEq, Repr

/-- `handleStopAndAnalyze`'s `onstop` continuation (SleepTracker.tsx lines
69-107), entered from `tracking`.  `status` is set to `analyzing` first;
with zero buffered chunks the flow records the debug message and moves to
`error`; otherwise the audio is assembled and the three awaited external
calls (audio analysis, session persistence, health suggestions) decide
between `results` and `error`.  The outcomes of those calls are passed in
as arguments; persistence rejects with a plain string (no `.message`). -/
def handleStopAndAnalyze (chunks : List Nat)
    (analyzeResp : Except String AnalysisData) (persistResp : Except Unit Unit)
    (suggestResp : Except String String) : StopOutcome :=
  if chunks.length = 0 then
    { statusTrace := [.analyzing, .error], errorLog := [noChunksMsg] }
  else
    match analyzeResp with
    | .error m =>
      { statusTrace := [.analyzing, .error], errorLog := [analyzeCatchMsg (some m)] }
    | .ok _ =>
      match persistResp with
      | .error _ =>
        { statusTrace := [.analyzing, .error], errorLog := [analyzeCatchMsg none] }
      | .ok _ =>
        match suggestResp with
        | .error m =>
          { statusTrace := [.analyzing, .error],
            errorLog := [analyzeCatchMsg (some m)] }
        | .ok _ => { statusTrace := [.analyzing, .results], errorLog := [] }

lemma analyzeCatchMsg_ne_empty (m : Option String) : analyzeCatchMsg m ≠ "" := by
  unfold analyzeCatchMsg
  match m with
  | none => simp
  | some s =>
    by_cases h : s = "" <;> simp [h]

/-- A sample session record used to instantiate external-call outcomes. -/
def sampleAnalysis : AnalysisData :=
  { date := "2024-01-01T00:00:00.000Z", sleepScore := 80,
    summary := "slept well", duration := 21600 }

/-- C2 counterexample: stopping with zero buffered chunks does pass
through the `analyzing` state — the status trace is
`[analyzing, error]`, so `analyzing` is assigned before `error` even
though the claim says the controller never passes through it. -/
theorem zero_chunks_passes_through_analyzing :
    (handleStopAndAnalyze [] (.ok sampleAnalysis) (.ok ()) (.ok "tips")).statusTrace =
      [.analyzing, .error] ∧
    TrackerStatus.analyzing ∈
      (handleStopAndAnalyze [] (.ok sampleAnalysis) (.ok ()) (.ok "tips")).statusTrace := by
  constructor
  · rfl
  · simp [handleStopAndAnalyze]

/-- C2 (amended): stopping with zero buffered chunks always ends in the
`error` state and never reaches `results`; the status trace is exactly
`[analyzing, error]` (so `analyzing` is entered transiently before the
error), and the debug log carries the fixed empty-capture message. -/
theorem zero_chunks_ends_in_error (analyzeResp : Except String AnalysisData)
    (persistResp : Except Unit Unit) (suggestResp : Except String String) :
    (handleStopAndAnalyze [] analyzeResp persistResp suggestResp).statusTrace =
      [.analyzing, .error] ∧
    TrackerStatus.results ∉
      (handleStopAndAnalyze [] analyzeResp persistResp suggestResp).statusTrace ∧
    (handleStopAndAnalyze [] analyzeResp persistResp suggestResp).errorLog =
      [noChunksMsg] := by
  refine ⟨rfl, ?_, rfl⟩
  simp [handleStopAndAnalyze]

/-- C7: if the audio-analysis call or the health-suggestions call comes
back from `postToApi` on a non-200 response, the stop-and-analyze flow of
a non-empty recording ends in `error` with a non-empty debug message and
never reaches `results`. -/
theorem gateway_failure_lands_in_error (chunks : List Nat)
    (analyzeResp : Except String AnalysisData) (persistResp : Except Unit Unit)
    (suggestResp : Except String String) (hchunks : chunks ≠ [])
    (hfail :
      (∃ r : FetchOutcome AnalysisData,
        analyzeResp = postToApi r ∧ r.isOk = false) ∨
      (∃ r : FetchOutcome String, suggestResp = postToApi r ∧ r.isOk = false)) :
    (handleStopAndAnalyze chunks analyzeResp persistResp suggestResp).statusTrace =
      [.analyzing, .error] ∧
    TrackerStatus.results ∉
      (handleStopAndAnalyze chunks analyzeResp persistResp suggestResp).statusTrace ∧
    (handleStopAndAnalyze chunks analyzeResp persistResp suggestResp).errorLog ≠ [] ∧
    ∀ msg ∈ (handleStopAndAnalyze chunks analyzeResp persistResp suggestResp).errorLog,
      msg ≠ "" := by
  have hlen : ¬ chunks.length = 0 := by
    simpa [List.length_eq_zero] using hchunks
  have herr : ∀ {β : Type} (r : FetchOutcome β), r.isOk = false →
      ∃ m, postToApi r = .error m := by
    intro β r hr
    cases r with
    | ok v => simp [FetchOutcome.isOk] at hr
    | notOk f => exact ⟨_, rfl⟩
  cases analyzeResp with
  | error m =>
    refine ⟨?_, ?_, ?_, ?_⟩ <;>
      simp [handleStopAndAnalyze, hlen, analyzeCatchMsg_ne_empty]
  | ok a =>
    cases persistResp with
    | error u =>
      refine ⟨?_, ?_, ?_, ?_⟩ <;>
        simp [handleStopAndAnalyze, hlen, analyzeCatchMsg_ne_empty]
    | ok u =>
      cases suggestResp with
      | error m =>
        refine ⟨?_, ?_, ?_, ?_⟩ <;>
          simp [handleStopAndAnalyze, hlen, analyzeCatchMsg_ne_empty]
      | ok s =>
        exfalso
        rcases hfail with ⟨r, hr, hro⟩ | ⟨r, hr, hro⟩ <;>
          · rcases herr r hro with ⟨m, hm⟩
            rw [hm] at hr
            exact Except.noConfusion hr

/-- Concrete instance of C7: with one buffered chunk and an audio-analysis
call answered by a non-200 response carrying `{error: "boom"}`, the flow
ends in `error`, does not reach `results`, and logs a non-empty message. -/
theorem gateway_failure_lands_in_error_witness :
    (handleStopAndAnalyze [1]
        (postToApi (FetchOutcome.notOk (some (some "boom")))) (.ok ())
        (.ok "tips")).statusTrace = [.analyzing, .error] ∧
    TrackerStatus.results ∉
      (handleStopAndAnalyze [1]
        (postToApi (FetchOutcome.notOk (some (some "boom")))) (.ok ())
        (.ok "tips")).statusTrace :=
  ⟨(gateway_failure_lands_in_error [1]
      (postToApi (FetchOutcome.notOk (some (some "boom")))) (.ok ()) (.ok "tips")
      (by decide) (Or.inl ⟨FetchOutcome.notOk (some (some "boom")), rfl, rfl⟩)).1,
   (gateway_failure_lands_in_error [1]
      (postToApi (FetchOutcome.notOk (some (some "boom")))) (.ok ()) (.ok "tips")
      (by decide) (Or.inl ⟨FetchOutcome.notOk (some (some "boom")), rfl, rfl⟩)).2.1⟩

/-- A side effect on browser/hardware resources issued by the tracker's
cleanup paths. -/
inductive Effect where
  | stopTrack (trackId : Nat)
  | stopRecorder
  | clearTimer (timerId : Nat)
  | revokeURL (url : String)
deriving DecidableEq, Repr

/-- The mutable refs and state of the recording session controller
(SleepTracker.tsx).  A microphone stream is a list of track ids;
`recorderRecording = some b` means a MediaRecorder exists and `b` says
whether its state is `"recording"`. -/
structure SessionState where
  timerId : Option Nat
  audioStream : Option (List Nat)
  recorderRecording : Option Bool
  liveSrcAttached : Bool
  audioURL : Option String
  status : TrackerStatus
  analysisData : Option AnalysisData
  healthSuggestions : String
  errorLog : List String
  duration : Nat
  sessionStartTime : Option Nat
deriving DecidableEq, Repr

/-- `cleanup` (SleepTracker.tsx lines 44-60): clear the duration timer,
stop every track of the acquired stream and drop the stream ref, stop the
recorder if it is recording and drop its ref, and detach the live audio
element.  Returns the new state and the hardware effects issued, in
program order. -/
def cleanup (s : SessionState) : SessionState × List Effect :=
  let timerEffs := match s.timerId with
    | some tid => [Effect.clearTimer tid]
    | none => []
  let streamEffs := match s.audioStream with
    | some tracks => tracks.map Effect.stopTrack
    | none => []
  let recEffs := match s.recorderRecording with
    | some true => [Effect.stopRecorder]
    | _ => []
  ({ s with timerId := none, audioStream := none, recorderRecording := none,
            liveSrcAttached := false },
   timerEffs ++ streamEffs ++ recEffs)

/-- `resetState` (SleepTracker.tsx lines 187-197): revoke the local audio
object URL if any, run `cleanup`, and reset every piece of view state to
its idle value. -/
def resetState (s : SessionState) : SessionState × List Effect :=
  let urlEffs := match s.audioURL with
    | some u => [Effect.revokeURL u]
    | none => []
  let cleaned := cleanup s
  ({ cleaned.1 with
      status := .idle, analysisData := none, healthSuggestions := "",
      errorLog := [], duration := 0, audioURL := none,
      sessionStartTime := none },
   urlEffs ++ cleaned.2)

/-- C8: resetting the controller from any state leaves no acquired
microphone stream (a stop effect is issued for every track of the held
stream and the stream ref is cleared), no media recorder, and no pending
duration timer, and lands in `idle`; and a second reset from the resulting
state changes nothing and issues no further effects (reset is idempotent
and safe when no session is active). -/
theorem reset_releases_and_idempotent (s : SessionState) :
    (resetState s).1.audioStream = none ∧
    (resetState s).1.recorderRecording = none ∧
    (resetState s).1.timerId = none ∧
    (resetState s).1.audioURL = none ∧
    (resetState s).1.status = .idle ∧
    (∀ tracks, s.audioStream = some tracks →
      ∀ t ∈ tracks, Effect.stopTrack t ∈ (resetState s).2) ∧
    resetState (resetState s).1 = ((resetState s).1, []) := by
  obtain ⟨tid, stream, rec, live, url, st, ad, hs, er, du, sst⟩ := s
  refine ⟨rfl, rfl, rfl, rfl, rfl, ?_, ?_⟩
  · rintro tracks rfl t ht
    simp [resetState, cleanup, List.mem_append, List.mem_map]
    tauto
  · simp [resetState, cleanup]

/-- Concrete instance of C8: resetting a fully active tracking session
stops its second stream track and a further reset is a no-op. -/
theorem reset_releases_and_idempotent_witness :
    Effect.stopTrack 2 ∈
      (resetState ⟨some 5, some [1, 2], some true, true, some "blob-url",
        .tracking, none, "", [], 42, some 99⟩).2 ∧
    resetState (resetState ⟨some 5, some [1, 2], some true, true,
        some "blob-url", .tracking, none, "", [], 42, some 99⟩).1 =
      ((resetState ⟨some 5, some [1, 2], some true, true, some "blob-url",
        .tracking, none, "", [], 42, some 99⟩).1, []) :=
  ⟨(reset_releases_and_idempotent ⟨some 5, some [1, 2], some true, true,
      some "blob-url", .tracking, none, "", [], 42, some 99⟩).2.2.2.2.2.1
      [1, 2] rfl 2 (by decide),
   (reset_releases_and_idempotent ⟨some 5, some [1, 2], some true, true,
      some "blob-url", .tracking, none, "", [], 42, some 99⟩).2.2.2.2.2.2⟩

/-- The body of an HTTP response from the gateway endpoint: plain text,
`JSON.stringify({error: msg})`, or `JSON.stringify(result)`. -/
inductive RespBody where
  | text (s : String)
  | errorJson (e : String)
  | resultJson (r : String)
deriving DecidableEq, Repr

/-- The four operation names accepted by the gateway `switch`
(netlify function, lines 830-845). -/
def knownOps : List String :=
  ["analyzeSleepAudio", "getHealthSuggestions", "getWeeklyAnalysis",
   "getHistoricalAnalysis"]

/-- The gateway `switch` on `type`: a known operation runs its handler
(whose outcome is passed in as `opRun`), any other value throws
`Unknown API call type: ...` (an absent `type` field prints as
`undefined`). -/
def dispatchOp (ty : Option String)
    (opRun : String → Except String String) : Except String String :=
  match ty with
  | some t =>
    if knownOps.contains t then opRun t
    else .error ("Unknown API call type: " ++ t)
  | none => .error "Unknown API call type: undefined"

/-- `error.message || 'An internal server error occurred.'` from the
gateway's catch block. -/
def errMessageOr (m : String) : String :=
  if m = "" then "An internal server error occurred." else m

/-- The gateway `handler` (netlify function, lines 820-859): a non-POST
request is answered `405` with the plain-text body `Method Not Allowed`;
a POST request parses its body (`bodyParse` is the outcome of
`JSON.parse`, yielding the `type` field), dispatches, and answers `200`
with the stringified result or `500` with `{error: message}`. -/
def gatewayHandler (httpMethod : String)
    (bodyParse : Except String (Option String))
    (opRun : String → Except String String) : Nat × RespBody :=
  if httpMethod ≠ "POST" then (405, .text "Method Not Allowed")
  else
    match bodyParse.bind (fun ty => dispatchOp ty opRun) with
    | .ok r => (200, .resultJson r)
    | .error m => (500, .errorJson (errMessageOr m))

/-- The response shape asserted by the wire-contract claim: 200 with an
operation result, or a non-200 status whose body is a JSON object with an
`error` string. -/
def wireContractShape (resp : Nat × RespBody) : Prop :=
  (resp.1 = 200 ∧ ∃ r, resp.2 = RespBody.resultJson r) ∨
  (resp.1 ≠ 200 ∧ ∃ e, resp.2 = RespBody.errorJson e)

lemma errMessageOr_ne_empty (m : String) : errMessageOr m ≠ "" := by
  unfold errMessageOr
  by_cases h : m = "" <;> simp [h]

/-- C5 counterexample: a request whose HTTP method is not POST is answered
405 with the plain-text body `Method Not Allowed`, which is not a JSON
object of the shape required by the claimed wire contract. -/
theorem gateway_non_post_breaks_wire_contract :
    gatewayHandler "GET" (.ok none) (fun _ => .ok "{}") =
      (405, RespBody.text "Method Not Allowed") ∧
    ¬ wireContractShape (gatewayHandler "GET" (.ok none) (fun _ => .ok "{}")) := by
  have he : gatewayHandler "GET" (.ok none) (fun _ => .ok "{}") =
      (405, RespBody.text "Method Not Allowed") := rfl
  refine ⟨he, ?_⟩
  intro h
  rw [he] at h
  rcases h with ⟨h200, _⟩ | ⟨_, e, habs⟩
  · simp at h200
  · simp at habs

/-- C5 (amended): every POST request to the gateway is answered either 200
with the operation result or 500 with `{error: message}` where the message
is non-empty (unknown operation types and body-parse failures included);
a request with any other HTTP method is answered 405 with the plain-text
body `Method Not Allowed`, not a JSON error object. -/
theorem gateway_wire_contract (method : String)
    (bodyParse : Except String (Option String))
    (opRun : String → Except String String) :
    (method = "POST" →
      ((gatewayHandler method bodyParse opRun).1 = 200 ∧
        ∃ r, (gatewayHandler method bodyParse opRun).2 = RespBody.resultJson r) ∨
      ((gatewayHandler method bodyParse opRun).1 = 500 ∧
        ∃ e, e ≠ "" ∧
          (gatewayHandler method bodyParse opRun).2 = RespBody.errorJson e)) ∧
    (method ≠ "POST" →
      gatewayHandler method bodyParse opRun =
        (405, RespBody.text "Method Not Allowed")) := by
  constructor
  · intro hm
    subst hm
    cases hres : bodyParse.bind (fun ty => dispatchOp ty opRun) with
    | ok r =>
      exact Or.inl ⟨by simp [gatewayHandler, hres], r, by simp [gatewayHandler, hres]⟩
    | error m =>
      exact Or.inr ⟨by simp [gatewayHandler, hres], errMessageOr m,
        errMessageOr_ne_empty m, by simp [gatewayHandler, hres]⟩
  · intro hm
    simp [gatewayHandler, hm]

/-- Concrete instance of C5 (amended): a GET request gets the plain 405
answer, and a well-formed POST request gets a contract-shaped answer. -/
theorem gateway_wire_contract_witness :
    gatewayHandler "GET" (.ok (some "getWeeklyAnalysis")) (fun _ => .ok "ok") =
      (405, RespBody.text "Method Not Allowed") ∧
    (((gatewayHandler "POST" (.ok (some "getWeeklyAnalysis"))
          (fun _ => .ok "ok")).1 = 200 ∧
      ∃ r, (gatewayHandler "POST" (.ok (some "getWeeklyAnalysis"))
          (fun _ => .ok "ok")).2 = RespBody.resultJson r) ∨
     ((gatewayHandler "POST" (.ok (some "getWeeklyAnalysis"))
          (fun _ => .ok "ok")).1 = 500 ∧
      ∃ e, e ≠ "" ∧
        (gatewayHandler "POST" (.ok (some "getWeeklyAnalysis"))
          (fun _ => .ok "ok")).2 = RespBody.errorJson e)) :=
  ⟨(gateway_wire_contract "GET" (.ok (some "getWeeklyAnalysis"))
      (fun _ => .ok "ok")).2 (by decide),
   (gateway_wire_contract "POST" (.ok (some "getWeeklyAnalysis"))
      (fun _ => .ok "ok")).1 rfl⟩

/-- The dashboard's selectable time window (Dashboard.tsx `TimeRange`). -/
inductive TimeRange where
  | week
  | month
  | year
deriving DecidableEq, Repr

/-- The window length in days selected by the dashboard
(Dashboard.tsx line 484): week 7, month 30, year 365. -/
def windowDays : TimeRange → Nat
  | .week => 7
  | .month => 30
  | .year => 365

/-- Milliseconds per calendar day. -/
def msPerDay : Int := 86400000

/-- The cutoff computed by `filteredData` (Dashboard.tsx line 485):
`baseDate.setDate(baseDate.getDate() - days)`, i.e. now shifted back by
the window length in whole days. -/
def cutoffMs (nowMs : Int) (r : TimeRange) : Int :=
  nowMs - (windowDays r : Int) * msPerDay

/-- `filteredData` (Dashboard.tsx lines 482-487): keep the sessions whose
date is on or after the cutoff.  The JavaScript date parser is the oracle
`dateMs`. -/
def filteredData (dateMs : String → Int) (nowMs : Int) (r : TimeRange)
    (history : List AnalysisData) : List AnalysisData :=
  history.filter (fun item => decide (cutoffMs nowMs r ≤ dateMs item.date))

/-- JavaScript `Math.round`: round half toward positive infinity. -/
def jsRound (q : ℚ) : Int := ⌊q + 1 / 2⌋

/-- `avgScore` (Dashboard.tsx line 552):
`Math.round(sum of sleepScore / length)`. -/
def avgScore (data : List AnalysisData) : Int :=
  jsRound ((data.map (fun s => (s.sleepScore : ℚ))).sum / (data.length : ℚ))

/-- `avgDuration` (Dashboard.tsx line 553): `sum of duration / length`,
kept exact (no rounding in the source). -/
def avgDuration (data : List AnalysisData) : ℚ :=
  (data.map (fun s => (s.duration : ℚ))).sum / (data.length : ℚ)

/-- Two sessions whose scores average to a non-integer. -/
def twoSessions : List AnalysisData :=
  [{ date := "2024-01-01", sleepScore := 70, summary := "", duration := 21600 },
   { date := "2024-01-02", sleepScore := 71, summary := "", duration := 21600 }]

/-- The synthetic three-session week named by the claim: scores
70/80/90, durations 25200/28800/21600 seconds. -/
def exampleSessions : List AnalysisData :=
  [{ date := "2024-01-01", sleepScore := 70, summary := "", duration := 25200 },
   { date := "2024-01-02", sleepScore := 80, summary := "", duration := 28800 },
   { date := "2024-01-03", sleepScore := 90, summary := "", duration := 21600 }]

/-- C9 counterexample: the displayed average score is `Math.round` of the
mean, not the arithmetic mean itself — for scores 70 and 71 the dashboard
shows 71 while the arithmetic mean is 70.5. -/
theorem avgScore_not_arithmetic_mean :
    avgScore twoSessions = 71 ∧
    ((avgScore twoSessions : ℚ) ≠
      (twoSessions.map (fun s => (s.sleepScore : ℚ))).sum /
        (twoSessions.length : ℚ)) := by
  have hq : (twoSessions.map (fun s => (s.sleepScore : ℚ))).sum /
      (twoSessions.length : ℚ) = 141 / 2 := by
    simp [twoSessions]
    norm_num
  have h71 : avgScore twoSessions = 71 := by
    unfold avgScore
    rw [hq]
    unfold jsRound
    norm_num
  refine ⟨h71, ?_⟩
  rw [h71, hq]
  norm_num

/-- C9 (amended): the dashboard keeps exactly the sessions with
date ≥ now − window (week 7 d, month 30 d, year 365 d) and displays
`Math.round` of the mean sleep score (the exact mean only when it is an
integer) and the exact mean duration; on the synthetic three-session week
with scores 70/80/90 and durations 25200/28800/21600 s these are 80 and
25200. -/
theorem dashboard_filters_and_averages (dateMs : String → Int) (nowMs : Int)
    (r : TimeRange) (history : List AnalysisData) :
    (∀ s, s ∈ filteredData dateMs nowMs r history ↔
      (s ∈ history ∧ cutoffMs nowMs r ≤ dateMs s.date)) ∧
    avgScore (filteredData (fun _ => 0) 0 .week exampleSessions) = 80 ∧
    avgDuration (filteredData (fun _ => 0) 0 .week exampleSessions) = 25200 := by
  have hfd : filteredData (fun _ => 0) 0 .week exampleSessions =
      exampleSessions := by
    simp [filteredData, exampleSessions, cutoffMs, windowDays, msPerDay]
  refine ⟨?_, ?_, ?_⟩
  · intro s
    simp [filteredData, List.mem_filter]
  · rw [hfd]
    have hq : (exampleSessions.map (fun s => (s.sleepScore : ℚ))).sum /
        (exampleSessions.length : ℚ) = 80 := by
      simp [exampleSessions]
      norm_num
    unfold avgScore
    rw [hq]
    unfold jsRound
    norm_num
  · rw [hfd]
    unfold avgDuration
    simp [exampleSessions]
    norm_num

/-- Concrete instance of C9 (amended): a session dated at the window
boundary is kept by the filter. -/
theorem dashboard_filters_and_averages_witness :
    { date := "2024-01-01", sleepScore := 70, summary := "",
      duration := 25200 : AnalysisData } ∈
      filteredData (fun _ => 0) 0 .week exampleSessions :=
  ((dashboard_filters_and_averages (fun _ => 0) 0 .week exampleSessions).1
      { date := "2024-01-01", sleepScore := 70, summary := "",
        duration := 25200 }).2
    ⟨by simp [exampleSessions], by norm_num [cutoffMs, windowDays, msPerDay]⟩

/-- The alarm record built by `addAlarm` for a submission at clock
millisecond `nowMs`: its id is `Date.now().toString()`. -/
def mkNewAlarm (nowMs : Nat) (time label : String) (days : List Nat) : Alarm :=
  { id := toString nowMs, time := time, label := label, isActive := true,
    days := days }

lemma saveAlarm_fresh (store : List Alarm) (a : Alarm)
    (hfresh : ∀ x ∈ store, x.id ≠ a.id) :
    saveAlarm store a = store ++ [a] := by
  unfold saveAlarm
  have hany : store.any (fun x => x.id == a.id) = false := by
    simp only [List.any_eq_false]
    intro x hx
    simpa using hfresh x hx
  simp [hany]

lemma saveAlarm_replace_last (store : List Alarm) (a b : Alarm)
    (hfresh : ∀ x ∈ store, x.id ≠ b.id) (hid : a.id = b.id) :
    saveAlarm (store ++ [a]) b = store ++ [b] := by
  unfold saveAlarm
  have hany : (store ++ [a]).any (fun x => x.id == b.id) = true := by
    simp only [List.any_eq_true]
    exact ⟨a, by simp, by simp [hid]⟩
  rw [if_pos hany, List.map_append]
  congr 1
  · calc store.map (fun x => if x.id == b.id then b else x) =
        store.map id := by
          apply List.map_congr_left
          intro x hx
          simp [hfresh x hx]
    _ = store := List.map_id store
  · simp [hid]

/-- C10: two alarms added within the same clock millisecond get the same
id (`Date.now().toString()`), so the second store `put` replaces the
first record — the store ends with exactly one record under that id,
holding the second alarm's data — while the in-memory alarm list keeps
both entries (its count of that id grows by two).  The store and the
in-memory cache diverge, and alarm ids are not unique. -/
theorem same_millisecond_ids_diverge (t : Nat) (time1 label1 : String)
    (days1 : List Nat) (time2 label2 : String) (days2 : List Nat)
    (store alarms : List Alarm)
    (hfresh : ∀ x ∈ store, x.id ≠ toString t) :
    ((addAlarm t time2 label2 days2
        (addAlarm t time1 label1 days1 store alarms).1
        (addAlarm t time1 label1 days1 store alarms).2).1.filter
        (fun x => x.id == toString t)) = [mkNewAlarm t time2 label2 days2] ∧
    ((addAlarm t time2 label2 days2
        (addAlarm t time1 label1 days1 store alarms).1
        (addAlarm t time1 label1 days1 store alarms).2).2.countP
        (fun x => x.id == toString t)) =
      alarms.countP (fun x => x.id == toString t) + 2 := by
  have h1 : (addAlarm t time1 label1 days1 store alarms).1 =
      store ++ [mkNewAlarm t time1 label1 days1] :=
    saveAlarm_fresh store _ hfresh
  constructor
  · have h2 : (addAlarm t time2 label2 days2
        (addAlarm t time1 label1 days1 store alarms).1
        (addAlarm t time1 label1 days1 store alarms).2).1 =
        store ++ [mkNewAlarm t time2 label2 days2] := by
      show saveAlarm (addAlarm t time1 label1 days1 store alarms).1
          (mkNewAlarm t time2 label2 days2) = _
      rw [h1]
      exact saveAlarm_replace_last store _ _ hfresh rfl
    rw [h2, List.filter_append]
    have hnil : store.filter (fun x => x.id == toString t) = [] := by
      rw [List.filter_eq_nil_iff]
      intro x hx
      simpa using hfresh x hx
    rw [hnil]
    simp [mkNewAlarm]
  · have hm1 : (addAlarm t time1 label1 days1 store alarms).2.countP
        (fun x => x.id == toString t) =
        alarms.countP (fun x => x.id == toString t) + 1 := by
      show ((alarms ++ [mkNewAlarm t time1 label1 days1]).mergeSort
          (fun a b => decide (a.time ≤ b.time))).countP
          (fun x => x.id == toString t) = _
      rw [List.Perm.countP_eq _ (List.mergeSort_perm _ _),
        List.countP_append]
      simp [List.countP_cons, mkNewAlarm]
    show (((addAlarm t time1 label1 days1 store alarms).2 ++
        [mkNewAlarm t time2 label2 days2]).mergeSort
          (fun a b => decide (a.time ≤ b.time))).countP
        (fun x => x.id == toString t) = _
    rw [List.Perm.countP_eq _ (List.mergeSort_perm _ _), List.countP_append,
      hm1]
    simp [List.countP_cons, mkNewAlarm]

/-- Concrete instance of C10: starting from an empty store and cache, two
adds in millisecond 42 leave one stored record (the second) but two cached
entries under id `42`. -/
theorem same_millisecond_ids_diverge_witness :
    ((addAlarm 42 "07:00" "a" [] (addAlarm 42 "06:00" "b" [] [] []).1
        (addAlarm 42 "06:00" "b" [] [] []).2).1.filter
        (fun x => x.id == toString 42)) = [mkNewAlarm 42 "07:00" "a" []] ∧
    ((addAlarm 42 "07:00" "a" [] (addAlarm 42 "06:00" "b" [] [] []).1
        (addAlarm 42 "06:00" "b" [] [] []).2).2.countP
        (fun x => x.id == toString 42)) =
      ([] : List Alarm).countP (fun x => x.id == toString 42) + 2 :=
  same_millisecond_ids_diverge 42 "06:00" "b" [] "07:00" "a" [] [] []
    (by intro x hx; simp at hx)
